import Mathlib

/-!
Shallow embedding of the YouTube-Bulk-Downloader scripts
(src/video_generator.py, src/test.py, src/metadata.py) and proofs about
the batch-processing loop, URL cleaning, column selection, ffprobe
output parsing, folder scanning and report-artifact decisions.

Conventions of the embedding:
  - Python strings are Lean String; str.strip() is String.trim and
    str.lower() is pyLower below.
  - A Python dict read from ffprobe JSON output is a structure of
    Option fields (a missing key is none); numeric JSON string fields
    such as size, duration and bit_rate are modelled as already-parsed
    numbers, matching the well-formedness assumption that ffprobe emits
    numeric strings there.
  - Fallible operations return Option; subprocess results are modelled
    by their observable pair (exit code, captured text).
  - Wall-clock reads (datetime.now) are a String parameter named now.
  - Side effects relevant to the claims (invocations of the external
    tool, time.sleep calls) are recorded in an explicit event trace.
-/

/-- Python str.lower on the character list of the string (ASCII case map,
which covers every name the scripts compare). -/
def pyLower (s : String) : String := ⟨s.data.map Char.toLower⟩

/-- Python str.strip: remove leading and trailing whitespace from the
character list of the string. -/
def pyStrip (s : String) : String :=
  ⟨((s.data.dropWhile Char.isWhitespace).reverse.dropWhile Char.isWhitespace).reverse⟩

/-- Split a character list on a separator character; never returns the
empty list of pieces. -/
def splitOnChar (sep : Char) : List Char → List (List Char)
  | [] => [[]]
  | c :: rest =>
    let r := splitOnChar sep rest
    if c = sep then [] :: r
    else
      match r with
      | [] => [[c]]
      | h :: t => (c :: h) :: t

/-- Python os.path.basename for forward-slash paths: the last path component. -/
def pyBasename (s : String) : String := ⟨(splitOnChar '/' s.data).getLast!⟩

/-! ## URL cleaning and column selection (src/video_generator.py main, lines 80-94) -/

/-- The literal drop-list of src/video_generator.py line 93. -/
def dropValues : List String := ["", "nan", "none"]

/-- Column-name normalisation of src/video_generator.py line 81:
col.strip().lower(). -/
def normalizeCol (c : String) : String := pyLower (pyStrip c)

/-- URL cleaning of src/video_generator.py lines 90-94: keep the values u
(all text, so the isinstance guard holds) with u.strip().lower() not in
the drop-list, and emit str(u).strip() for each kept value, in order. -/
def cleanUrls (vals : List String) : List String :=
  (vals.filter (fun u => !(dropValues.contains (pyLower (pyStrip u))))).map pyStrip

/-- URL cleaning of src/test.py lines 258-264: dropna (the identity on a
column of text values, which has no missing cells) followed by
str(url).strip() on every value. No literal nan or none strings are dropped. -/
def cleanUrlsTest (vals : List String) : List String := vals.map pyStrip

/-- Cleaning as the spec sentence words it, for comparison: the cleaned
list is obtained by dropping exactly the blank, nan or none values
(case-insensitively, after stripping whitespace), keeping the remaining
values themselves. -/
def cleanedSpecC4 (vals : List String) : List String :=
  vals.filter (fun u => !(dropValues.contains (pyLower (pyStrip u))))

/-- Column choice of src/video_generator.py lines 81-87 as an index into
the original column list: the columns are renamed to their stripped
lowercase forms, then the column named url is used when present (pandas
selects the first such label), else the first column. -/
def selectColumnIdx (cols : List String) : Nat :=
  let ns := cols.map normalizeCol
  if ns.contains "url" then ns.indexOf "url" else 0

/-- Column choice of src/test.py lines 257-262 as an index: a column named
exactly URL, else a column named exactly url, else the first column. -/
def selectColumnIdxTest (cols : List String) : Nat :=
  if cols.contains "URL" then cols.indexOf "URL"
  else if cols.contains "url" then cols.indexOf "url"
  else 0

/-- Index of the first element satisfying a predicate, if any. -/
def firstIdxWhere (p : String → Bool) : List String → Option Nat
  | [] => none
  | x :: xs => if p x then some 0 else (firstIdxWhere p xs).map (· + 1)

/-- Column choice as the spec sentence words it, for comparison: the first
column whose name matches url case-insensitively, else the first column. -/
def selectColumnSpecC5 (cols : List String) : Nat :=
  (firstIdxWhere (fun c => pyLower c == "url") cols).getD 0

/-! ## ffprobe invocation (src/metadata.py, extract_video_metadata, lines 37-71) -/

/-- One ffprobe stream dict, with the keys that parse_metadata reads.
A missing key is none. In ffprobe JSON, width, height and channels are
integers while the per-stream bit_rate is a string. -/
structure PyStream where
  codec_type : Option String
  codec_name : Option String
  codec_long_name : Option String
  width : Option Nat
  height : Option Nat
  r_frame_rate : Option String
  display_aspect_ratio : Option String
  pix_fmt : Option String
  bit_rate : Option String
  channels : Option Nat
  channel_layout : Option String
  sample_rate : Option String
deriving DecidableEq, Repr

/-- The ffprobe format dict, with the keys that parse_metadata reads;
size, duration and bit_rate arrive as numeric strings and are modelled
as the numbers they denote. -/
structure PyFormat where
  size : Option Nat
  duration : Option ℚ
  format_name : Option String
  format_long_name : Option String
  bit_rate : Option Nat
deriving DecidableEq, Repr

/-- The top-level ffprobe JSON dict: an optional format section, an
optional streams list, and the names of any further top-level keys
(kept only so that Python dict truthiness is representable). -/
structure RawMetadata where
  format : Option PyFormat
  streams : Option (List PyStream)
  otherKeys : List String
deriving DecidableEq, Repr

/-- Python truthiness of a dict: an empty dict is falsy. -/
def RawMetadata.isEmptyDict (r : RawMetadata) : Bool :=
  r.format.isNone && r.streams.isNone && r.otherKeys.isEmpty

/-- Python truthiness of the optional raw-metadata value: None and the
empty dict are falsy, any non-empty dict is truthy. -/
def pyTruthyRaw (raw : Option RawMetadata) : Bool :=
  match raw with
  | none => false
  | some r => !r.isEmptyDict

/-- src/metadata.py lines 37-71, extract_video_metadata, over the
observable subprocess outcome: when the exit code is zero and the
captured stdout is non-empty (truthy), the stdout is JSON-decoded and
the decoded dict returned, with a decode failure mapped to None; in
every other case (non-zero exit code, or empty stdout) the result is
None. The surrounding try/except also maps any exception to None, so
the function is total. The JSON decoder is abstracted as jsonParse. -/
def extract_video_metadata (jsonParse : String → Option RawMetadata)
    (returncode : Int) (stdout : String) : Option RawMetadata :=
  if returncode = 0 && stdout != "" then
    match jsonParse stdout with
    | some j => some j
    | none => none
  else
    none

/-! ## parse_metadata (src/metadata.py, lines 73-163) -/

/-- The flat record that parse_metadata builds, one Lean field per key of
the dict literal at src/metadata.py lines 78-107, in source order. -/
structure ParsedRecord where
  filepath : String
  filename : String
  file_size_bytes : Nat
  file_size_mb : ℚ
  duration_seconds : ℚ
  format_name : String
  format_long_name : String
  bit_rate : Nat
  video_codec : String
  video_codec_long : String
  resolution : String
  width : Nat
  height : Nat
  frame_rate : String
  aspect_ratio : String
  pixel_format : String
  video_bitrate : String
  audio_codec : String
  audio_codec_long : String
  audio_channels : Nat
  audio_channel_layout : String
  audio_sample_rate : String
  audio_bitrate : String
  has_video : Bool
  has_audio : Bool
  has_subtitles : Bool
  subtitle_count : Nat
  extraction_timestamp : String
deriving DecidableEq, Repr

/-- The keys of the dict literal at src/metadata.py lines 78-107, in
source order: the key set of every record parse_metadata returns. -/
def record_keys : List String :=
  ["filepath", "filename", "file_size_bytes", "file_size_mb",
   "duration_seconds", "format_name", "format_long_name", "bit_rate",
   "video_codec", "video_codec_long", "resolution", "width", "height",
   "frame_rate", "aspect_ratio", "pixel_format", "video_bitrate",
   "audio_codec", "audio_codec_long", "audio_channels",
   "audio_channel_layout", "audio_sample_rate", "audio_bitrate",
   "has_video", "has_audio", "has_subtitles", "subtitle_count",
   "extraction_timestamp"]

/-- Python round(x, 2) on the exact value: round to two decimal places.
The source rounds a binary float; the embedding rounds the exact
rational, which agrees on the values the claims touch. -/
def round2 (q : ℚ) : ℚ := (round (q * 100) : ℤ) / 100

/-- The initial record of src/metadata.py lines 78-107: every numeric
field zero, every string field empty, flags false, plus the file path,
its basename and the extraction timestamp taken from datetime.now(). -/
def baseRecord (filepath now : String) : ParsedRecord where
  filepath := filepath
  filename := pyBasename filepath
  file_size_bytes := 0
  file_size_mb := 0
  duration_seconds := 0
  format_name := ""
  format_long_name := ""
  bit_rate := 0
  video_codec := ""
  video_codec_long := ""
  resolution := ""
  width := 0
  height := 0
  frame_rate := ""
  aspect_ratio := ""
  pixel_format := ""
  video_bitrate := ""
  audio_codec := ""
  audio_codec_long := ""
  audio_channels := 0
  audio_channel_layout := ""
  audio_sample_rate := ""
  audio_bitrate := ""
  has_video := false
  has_audio := false
  has_subtitles := false
  subtitle_count := 0
  extraction_timestamp := now

/-- Format-section pass of src/metadata.py lines 110-117: executed only
when the format key is present; each fmt.get call defaults the size and
bit_rate to 0, the duration to 0 and the names to the empty string. -/
def applyFormat (p : ParsedRecord) (fmt? : Option PyFormat) : ParsedRecord :=
  match fmt? with
  | none => p
  | some fmt =>
    { p with
      file_size_bytes := fmt.size.getD 0
      file_size_mb := round2 ((fmt.size.getD 0 : ℚ) / (1024 * 1024))
      duration_seconds := round2 (fmt.duration.getD 0)
      format_name := fmt.format_name.getD ""
      format_long_name := fmt.format_long_name.getD ""
      bit_rate := fmt.bit_rate.getD 0 }

/-- Streams pass of src/metadata.py lines 120-161: executed only when the
streams key is present. Streams are bucketed by codec_type; the flags
record whether any video, audio or subtitle stream was seen; the first
video and first audio stream fill the per-stream fields, with a missing
per-stream bit_rate defaulting to the string N/A and missing width or
height entering the resolution string as 0. -/
def applyStreams (p : ParsedRecord) (streams? : Option (List PyStream)) : ParsedRecord :=
  match streams? with
  | none => p
  | some streams =>
    let videoStreams := streams.filter (fun s => s.codec_type.getD "" == "video")
    let audioStreams := streams.filter (fun s => s.codec_type.getD "" == "audio")
    let subCount := streams.countP (fun s => s.codec_type.getD "" == "subtitle")
    let p1 :=
      { p with
        has_video := !videoStreams.isEmpty
        has_audio := !audioStreams.isEmpty
        has_subtitles := subCount != 0
        subtitle_count := subCount }
    let p2 :=
      match videoStreams with
      | [] => p1
      | v :: _ =>
        { p1 with
          video_codec := v.codec_name.getD ""
          video_codec_long := v.codec_long_name.getD ""
          width := v.width.getD 0
          height := v.height.getD 0
          resolution := toString (v.width.getD 0) ++ "x" ++ toString (v.height.getD 0)
          frame_rate := v.r_frame_rate.getD ""
          aspect_ratio := v.display_aspect_ratio.getD ""
          pixel_format := v.pix_fmt.getD ""
          video_bitrate := v.bit_rate.getD "N/A" }
    match audioStreams with
    | [] => p2
    | a :: _ =>
      { p2 with
        audio_codec := a.codec_name.getD ""
        audio_codec_long := a.codec_long_name.getD ""
        audio_channels := a.channels.getD 0
        audio_channel_layout := a.channel_layout.getD ""
        audio_sample_rate := a.sample_rate.getD ""
        audio_bitrate := a.bit_rate.getD "N/A" }

/-- src/metadata.py lines 73-163, parse_metadata: None when the raw
metadata is falsy (None or the empty dict), otherwise the initial record
updated by the format pass and then the streams pass. -/
def parse_metadata (raw : Option RawMetadata) (filepath now : String) :
    Option ParsedRecord :=
  match raw with
  | none => none
  | some r =>
    if r.isEmptyDict then none
    else some (applyStreams (applyFormat (baseRecord filepath now) r.format) r.streams)

/-! ## The metadata batch loop (src/metadata.py main, lines 229-268) -/

/-- One work item of the metadata loop: its path string, whether the file
exists when the loop reaches it, and the outcome the probe tool would
produce for it (the value extract_video_metadata returns if invoked). -/
structure MetaItem where
  name : String
  fileExists : Bool
  probe : Option RawMetadata
deriving DecidableEq, Repr

/-- One per-item outcome of the metadata loop: the item identifier, the
success flag, the failure reason text recorded in failed_files (empty on
success) and the parsed record appended to all_metadata (none on failure). -/
structure ProcessResult where
  name : String
  success : Bool
  reason : String
  record : Option ParsedRecord
deriving DecidableEq, Repr

/-- Observable side effects of the metadata loop body: an invocation of
the external probe tool on a path, or a sleep. The source loop contains
no time.sleep call, so its traces never contain a sleepFor event. -/
inductive MetaEvent where
  | probe (path : String)
  | sleepFor (seconds : Nat)
deriving DecidableEq, Repr

/-- Whether a metadata-loop event is a sleep. -/
def MetaEvent.isSleep : MetaEvent → Bool
  | .probe _ => false
  | .sleepFor _ => true

/-- Loop body of src/metadata.py lines 234-268 for one item: a missing
file is recorded as the failure File not found without invoking the
probe tool; otherwise the tool is invoked, a truthy raw result is parsed
(parse_metadata on a truthy dict always yields a record, so the
Failed to parse metadata branch of line 262 is unreachable) and a falsy
or absent result is the failure Failed to extract metadata. -/
def metaStep (now : String) (it : MetaItem) : ProcessResult × List MetaEvent :=
  if !it.fileExists then
    (⟨it.name, false, "File not found", none⟩, [])
  else
    let raw := it.probe
    let res :=
      if pyTruthyRaw raw then
        match parse_metadata raw it.name now with
        | some p => (⟨it.name, true, "", some p⟩ : ProcessResult)
        | none => ⟨it.name, false, "Failed to parse metadata", none⟩
      else
        ⟨it.name, false, "Failed to extract metadata", none⟩
    (res, [MetaEvent.probe it.name])

/-- The metadata loop of src/metadata.py lines 234-268: one ProcessResult
per item in enumeration order, together with the event trace. -/
def runMetadata (now : String) : List MetaItem → List ProcessResult × List MetaEvent
  | [] => ([], [])
  | it :: rest =>
    let (r, es) := metaStep now it
    let (rs, ess) := runMetadata now rest
    (r :: rs, es ++ ess)

/-- The all_metadata list of src/metadata.py line 229/251: the parsed
records of the successful results, in order. -/
def allMetadataOf (rs : List ProcessResult) : List ParsedRecord :=
  rs.filterMap (·.record)

/-- The failed_files list of src/metadata.py line 232/241/262/266: the
identifier and reason of each failed result, in order. -/
def failedFilesOf (rs : List ProcessResult) : List (String × String) :=
  (rs.filter (fun r => !r.success)).map (fun r => (r.name, r.reason))

/-- Whether src/metadata.py lines 319-328 write the failed-extractions
text artifact: the write sits inside the if all_metadata block starting
at line 271, so it happens only when all_metadata is non-empty AND
failed_files is non-empty. -/
def metadataFailLogWritten (rs : List ProcessResult) : Bool :=
  !(allMetadataOf rs).isEmpty && !(failedFilesOf rs).isEmpty

/-! ## The download batch loops (src/video_generator.py main lines 106-132,
src/test.py main lines 307-335) -/

/-- One work item of a download loop: the URL and whether the external
download tool succeeds on it (download_video's return value). -/
structure DlItem where
  url : String
  ok : Bool
deriving DecidableEq, Repr

/-- Observable side effects of a download loop body: an invocation of the
external download tool on a URL, or a sleep of a fixed number of seconds. -/
inductive DlEvent where
  | download (url : String)
  | sleepFor (seconds : Nat)
deriving DecidableEq, Repr

/-- Whether a download-loop event is a sleep. -/
def DlEvent.isSleep : DlEvent → Bool
  | .download _ => false
  | .sleepFor _ => true

/-- A download loop with courtesy delay d: for idx, url in enumerate(urls, 1),
invoke the tool, record the per-item outcome, and sleep d seconds when
idx < len(urls), i.e. after every item except the last. Instantiated with
d = 3 by src/video_generator.py lines 128-132 and d = 2 by src/test.py
lines 332-335. -/
def dlRun (d : Nat) : List DlItem → List (String × Bool) × List DlEvent
  | [] => ([], [])
  | [it] => ([(it.url, it.ok)], [DlEvent.download it.url])
  | it :: rest =>
    let (rs, es) := dlRun d rest
    ((it.url, it.ok) :: rs, DlEvent.download it.url :: DlEvent.sleepFor d :: es)

/-- The failed_urls list of src/video_generator.py line 104/123 and
src/test.py line 302/323: the URLs of the failed items, in order. -/
def failedUrlsOf (items : List DlItem) : List String :=
  (items.filter (fun it => !it.ok)).map (·.url)

/-- Whether src/video_generator.py lines 144-150 write the failed-URLs
text artifact: exactly when failed_urls is non-empty. -/
def vgFailLogWritten (items : List DlItem) : Bool :=
  !(failedUrlsOf items).isEmpty

/-! ## Folder scanning (src/metadata.py, scan_folder_for_videos, lines 165-180) -/

/-- The extension list of src/metadata.py line 167. -/
def video_extensions : List String :=
  [".mkv", ".mp4", ".avi", ".mov", ".webm", ".flv", ".m4v", ".wmv"]

/-- src/metadata.py lines 165-180, scan_folder_for_videos. The folder is
modelled as none when it does not exist and as the list of its entry
names otherwise. For each extension the globs for the lowercase and the
uppercase pattern (matching names ending in that suffix) are unioned
into a set, and the set is returned as a sorted list. -/
def scan_folder_for_videos (folder : Option (List String)) : List String :=
  match folder with
  | none => []
  | some files =>
    let collected := video_extensions.flatMap (fun ext =>
      files.filter (fun f => f.endsWith ext) ++
      files.filter (fun f => f.endsWith ext.toUpper))
    List.insertionSort (· ≤ ·) collected.dedup

/-- A probe stream dict carrying only its codec_type key, marking a video
stream with every optional per-stream key absent. -/
def c7_stream : PyStream :=
  ⟨some "video", none, none, none, none, none, none, none, none, none, none, none⟩

/-- A well-formed probe result with no format section and a single video
stream that has every optional key absent. -/
def c7_raw : RawMetadata := ⟨none, some [c7_stream], []⟩

/-- The record parse_metadata produces for c7_raw. -/
def c7_record : ParsedRecord :=
  (parse_metadata (some c7_raw) "vid.mp4" "t0").getD (baseRecord "" "")

/-! Theorems begin below the definitions; claim order follows CLAIMS.json. -/

/-- Helper: the loop body always records the identifier of its item. -/
theorem metaStep_fst_name (now : String) (it : MetaItem) :
    (metaStep now it).1.name = it.name := by
  unfold metaStep
  split
  · rfl
  · dsimp only
    split
    · split <;> rfl
    · rfl

/-- Helper: the loop body emits a probe event exactly when the file exists. -/
theorem metaStep_snd (now : String) (it : MetaItem) :
    (metaStep now it).2 = if it.fileExists then [MetaEvent.probe it.name] else [] := by
  unfold metaStep
  cases h : it.fileExists <;> simp [h]

/-- Helper: the metadata loop records the item identifiers in enumeration
order, one result per item. -/
theorem runMetadata_map_name (now : String) (items : List MetaItem) :
    ((runMetadata now items).1.map (·.name)) = items.map (·.name) := by
  induction items with
  | nil => rfl
  | cons it rest ih =>
    simp only [runMetadata, List.map_cons]
    rw [metaStep_fst_name, ih]

/-- Helper: the download loop records the item URLs with the outcome of
the external tool, one result per item, in order. -/
theorem dlRun_fst (d : Nat) (items : List DlItem) :
    (dlRun d items).1 = items.map (fun it => (it.url, it.ok)) := by
  induction items with
  | nil => rfl
  | cons it rest ih =>
    cases rest with
    | nil => rfl
    | cons b l =>
      simp only [dlRun, List.map_cons] at ih ⊢
      rw [ih]

/-- C1: every batch loop of the repository (the metadata loop of
src/metadata.py lines 234-268 and the download loops of
src/video_generator.py lines 106-132 and src/test.py lines 307-335,
the latter two both instances of dlRun) yields exactly one result per
attempted work item, in enumeration order: mapping the results back to
item identifiers reproduces the input sequence, so in particular the
result count equals the item count. -/
theorem c1_one_result_per_item_in_order (now : String) (items : List MetaItem)
    (d : Nat) (ditems : List DlItem) :
    ((runMetadata now items).1.map (·.name) = items.map (·.name) ∧
      (runMetadata now items).1.length = items.length) ∧
    ((dlRun d ditems).1.map (·.1) = ditems.map (·.url) ∧
      (dlRun d ditems).1.length = ditems.length) := by
  refine ⟨⟨runMetadata_map_name now items, ?_⟩, ?_, ?_⟩
  · have h := congrArg List.length (runMetadata_map_name now items)
    simpa using h
  · rw [dlRun_fst]
    simp
  · rw [dlRun_fst]
    simp

/-- C3 counterexample: for a work item whose file is missing, the failure
reason the code records (src/metadata.py line 241) is the string
File not found, with a capital F, not the claimed string file not found. -/
theorem c3_counterexample :
    (runMetadata "t" [⟨"video1.mp4", false, none⟩]).1.map (·.reason) =
      ["File not found"] ∧
    "File not found" ≠ "file not found" := by
  constructor
  · rfl
  · decide

/-- C3 amended: for every work item whose path does not exist at
processing time, the metadata loop records a per-item failure with
reason File not found (capital F), emits no probe-tool invocation for
that item (the event trace is exactly that of the remaining items), and
processing of the subsequent items continues unchanged. -/
theorem c3_missing_file_recorded_without_probe (now name : String)
    (probe : Option RawMetadata) (rest : List MetaItem) :
    ((runMetadata now (⟨name, false, probe⟩ :: rest)).1.map
        (fun r => (r.name, r.success, r.reason)) =
      (name, false, "File not found") ::
        (runMetadata now rest).1.map (fun r => (r.name, r.success, r.reason))) ∧
    (runMetadata now (⟨name, false, probe⟩ :: rest)).2 =
      (runMetadata now rest).2 := by
  constructor <;> simp [runMetadata, metaStep]

/-- C6 amended: in the two download loops, a fixed delay event (3 seconds
in src/video_generator.py, 2 seconds in src/test.py, both instances of
dlRun d) follows every processed item except the last, and no delay
precedes the first: the event trace is exactly the download events with
the sleep interspersed between consecutive items. The metadata loop of
src/metadata.py lines 234-268, by contrast, contains no sleep at all:
its trace is just the probe events of the existing files. -/
theorem c6_delay_between_items (d : Nat) (ditems : List DlItem)
    (now : String) (items : List MetaItem) :
    (dlRun d ditems).2 =
      List.intersperse (DlEvent.sleepFor d)
        (ditems.map (fun it => DlEvent.download it.url)) ∧
    (runMetadata now items).2 =
      (items.filter (·.fileExists)).map (fun it => MetaEvent.probe it.name) := by
  constructor
  · induction ditems with
    | nil => rfl
    | cons it rest ih =>
      cases rest with
      | nil => rfl
      | cons b l =>
        simp only [dlRun, List.map_cons, List.intersperse] at ih ⊢
        rw [ih]
  · induction items with
    | nil => rfl
    | cons it rest ih =>
      simp only [runMetadata, List.filter_cons]
      rw [metaStep_snd]
      cases h : it.fileExists <;> simp [h, ih]

/-- C6 counterexample: processing two existing files through the metadata
batch loop produces two probe invocations with no delay event between
them, although the claim requires a fixed delay after every item except
the last in every batch loop. -/
theorem c6_counterexample :
    (runMetadata "t" [⟨"a.mp4", true, none⟩, ⟨"b.mp4", true, none⟩]).2 =
      [MetaEvent.probe "a.mp4", MetaEvent.probe "b.mp4"] ∧
    ((runMetadata "t" [⟨"a.mp4", true, none⟩, ⟨"b.mp4", true, none⟩]).2.countP
        MetaEvent.isSleep) = 0 := by
  constructor <;> rfl

/-- Helper: the searched-for index in firstIdxWhere form agrees with the
contains-then-indexOf pattern of the source. -/
theorem contains_indexOf_firstIdxWhere (a : String) (l : List String) :
    l.contains a = (firstIdxWhere (fun c => c == a) l).isSome ∧
    (if l.contains a then l.indexOf a else 0) =
      (firstIdxWhere (fun c => c == a) l).getD 0 := by
  induction l with
  | nil => exact ⟨rfl, rfl⟩
  | cons x xs ih =>
    obtain ⟨ih1, ih2⟩ := ih
    by_cases h : x = a
    · subst h
      have hc : (x :: xs).contains x = true := by
        show (x == x || xs.contains x) = true
        simp
      refine ⟨?_, ?_⟩
      · rw [hc]
        simp [firstIdxWhere]
      · rw [if_pos hc]
        simp [firstIdxWhere, List.indexOf_cons_self]
    · have hax : ¬ a = x := fun e => h e.symm
      have hb : (x == a) = false := by simp [h]
      have hb2 : (a == x) = false := by simp [hax]
      have hcc : (x :: xs).contains a = xs.contains a := by
        show (a == x || xs.contains a) = xs.contains a
        rw [hb2]
        exact Bool.false_or _
      refine ⟨?_, ?_⟩
      · rw [hcc, ih1]
        simp [firstIdxWhere, hb]
      · rw [hcc]
        simp only [firstIdxWhere, hb, if_false]
        cases hf : firstIdxWhere (fun c => c == a) xs with
        | none =>
          have hc : xs.contains a = false := by rw [ih1, hf]; rfl
          have hc2 : ¬ (xs.contains a = true) := by
            rw [hc]
            exact Bool.false_ne_true
          rw [if_neg hc2]
          rfl
        | some i =>
          have hc : xs.contains a = true := by rw [ih1, hf]; rfl
          rw [if_pos hc] at ih2
          rw [if_pos hc, List.indexOf_cons_ne _ h, ih2, hf]
          rfl

/-- Helper: searching a mapped list is searching the original list with
the composed predicate. -/
theorem firstIdxWhere_map (p : String → Bool) (f : String → String)
    (l : List String) :
    firstIdxWhere p (l.map f) = firstIdxWhere (fun x => p (f x)) l := by
  induction l with
  | nil => rfl
  | cons x xs ih => simp [firstIdxWhere, ih]

/-- C4 counterexample: on the very input list of the claim, the cleaning
of src/test.py (dropna on a text column, then strip) keeps the blank and
the literal nan value, contradicting the claimed cleaned list; and the
cleaning of src/video_generator.py strips surrounding whitespace from the
kept values, so the cleaned list is not obtained by dropping values alone. -/
theorem c4_counterexample :
    cleanUrlsTest ["https://x/a", "", "nan", "https://x/b"] ≠
      ["https://x/a", "https://x/b"] ∧
    cleanUrls [" https://x/a "] ≠ cleanedSpecC4 [" https://x/a "] := by
  constructor <;> decide

/-- C4 amended: in src/video_generator.py the cleaned list is obtained by
dropping exactly the values that are blank or equal to nan or none
case-insensitively after stripping whitespace, and then stripping
surrounding whitespace from each kept value, preserving order; the
claimed example input cleans to the claimed output there. The cleaning of
src/test.py instead only strips each value of the text column, dropping
nothing. -/
theorem c4_cleaning_drops_blank_nan_none (vals : List String) :
    cleanUrls vals = (cleanedSpecC4 vals).map pyStrip ∧
    (∀ u, u ∈ cleanedSpecC4 vals ↔
      u ∈ vals ∧ ¬ pyLower (pyStrip u) ∈ dropValues) ∧
    cleanUrlsTest vals = vals.map pyStrip ∧
    cleanUrls ["https://x/a", "", "nan", "https://x/b"] =
      ["https://x/a", "https://x/b"] := by
  refine ⟨rfl, ?_, rfl, by decide⟩
  intro u
  simp [cleanedSpecC4, List.mem_filter, dropValues]

/-- C5 counterexample: src/test.py matches the column name url only in the
two exact spellings URL and url, so for columns id and Url it selects the
first column instead of the case-insensitive match; and
src/video_generator.py also strips whitespace from column names, so a
column named url with surrounding spaces is selected although it is not a
case-insensitive match for url. -/
theorem c5_counterexample :
    selectColumnIdxTest ["id", "Url"] = 0 ∧
    selectColumnSpecC5 ["id", "Url"] = 1 ∧
    selectColumnIdx ["id", " url "] = 1 ∧
    selectColumnSpecC5 ["id", " url "] = 0 := by
  refine ⟨by decide, by decide, by decide, by decide⟩

/-- C5 amended: src/video_generator.py selects the first column whose
stripped lowercase name is url, else the first column; src/test.py
selects the first column named exactly URL, else the first column named
exactly url, else the first column. In particular a case-insensitive url
match that is also the lexically first such column is honoured by the
command-line script. -/
theorem c5_column_selection (cols : List String) :
    selectColumnIdx cols =
      (firstIdxWhere (fun c => normalizeCol c == "url") cols).getD 0 ∧
    selectColumnIdxTest cols =
      (match firstIdxWhere (fun c => c == "URL") cols with
       | some i => i
       | none => (firstIdxWhere (fun c => c == "url") cols).getD 0) ∧
    selectColumnIdx ["Id", " URL "] = 1 := by
  refine ⟨?_, ?_, by decide⟩
  · have h := (contains_indexOf_firstIdxWhere "url" (cols.map normalizeCol)).2
    rw [firstIdxWhere_map] at h
    exact h
  · obtain ⟨hU1, hU2⟩ := contains_indexOf_firstIdxWhere "URL" cols
    obtain ⟨hu1, hu2⟩ := contains_indexOf_firstIdxWhere "url" cols
    unfold selectColumnIdxTest
    cases hf : firstIdxWhere (fun c => c == "URL") cols with
    | some i =>
      have hc : cols.contains "URL" = true := by rw [hU1, hf]; rfl
      rw [if_pos hc] at hU2
      rw [hf] at hU2
      simp only [Option.getD_some] at hU2
      rw [if_pos hc, hU2]
    | none =>
      have hc : cols.contains "URL" = false := by rw [hU1, hf]; rfl
      have hc2 : ¬ (cols.contains "URL" = true) := by
        rw [hc]
        exact Bool.false_ne_true
      rw [if_neg hc2]
      exact hu2

/-- C2: whenever the probe tool's stdout does not JSON-decode (even with
exit code zero), or its exit code is non-zero, extract_video_metadata
returns the failure value none instead of raising. -/
theorem c2_probe_failure_returns_none
    (jsonParse : String → Option RawMetadata) (returncode : Int) (stdout : String)
    (h : jsonParse stdout = none ∨ returncode ≠ 0) :
    extract_video_metadata jsonParse returncode stdout = none := by
  unfold extract_video_metadata
  rcases h with h | h
  · split
    · rw [h]
    · rfl
  · have : (returncode = 0 && stdout != "") = false := by
      simp [h]
    rw [this]
    rfl

/-- C2 witness: a concrete malformed-JSON probe outcome with exit code
zero, and a concrete non-zero exit code, both map to none. -/
theorem c2_probe_failure_witness :
    extract_video_metadata (fun _ => none) 0 "not json" = none ∧
    extract_video_metadata (fun _ => some ⟨none, none, []⟩) 1 "ok" = none :=
  ⟨c2_probe_failure_returns_none (fun _ => none) 0 "not json" (Or.inl rfl),
   c2_probe_failure_returns_none (fun _ => some ⟨none, none, []⟩) 1 "ok"
     (Or.inr (by decide))⟩

/-- Helper: neither update pass touches the extraction timestamp, the
file path or the file name. -/
theorem applyPasses_fixed_fields (p : ParsedRecord) (fmt? : Option PyFormat)
    (streams? : Option (List PyStream)) :
    ((applyStreams (applyFormat p fmt?) streams?).extraction_timestamp =
        p.extraction_timestamp ∧
      (applyStreams (applyFormat p fmt?) streams?).filepath = p.filepath) := by
  have h1 : (applyFormat p fmt?).extraction_timestamp = p.extraction_timestamp ∧
      (applyFormat p fmt?).filepath = p.filepath := by
    cases fmt? <;> exact ⟨rfl, rfl⟩
  obtain ⟨h1a, h1b⟩ := h1
  cases streams? with
  | none => exact ⟨h1a, h1b⟩
  | some l =>
    unfold applyStreams
    dsimp only
    constructor <;>
      · split <;> split <;> simp [h1a, h1b]

/-- Helper: the streams pass does not touch the six format-section fields. -/
theorem applyStreams_format_fields (p : ParsedRecord)
    (streams? : Option (List PyStream)) :
    (applyStreams p streams?).file_size_bytes = p.file_size_bytes ∧
    (applyStreams p streams?).file_size_mb = p.file_size_mb ∧
    (applyStreams p streams?).duration_seconds = p.duration_seconds ∧
    (applyStreams p streams?).format_name = p.format_name ∧
    (applyStreams p streams?).format_long_name = p.format_long_name ∧
    (applyStreams p streams?).bit_rate = p.bit_rate := by
  cases streams? with
  | none => exact ⟨rfl, rfl, rfl, rfl, rfl, rfl⟩
  | some l =>
    unfold applyStreams
    dsimp only
    refine ⟨?_, ?_, ?_, ?_, ?_, ?_⟩ <;>
      · split <;> split <;> rfl

/-- Helper: the format pass does not touch the per-stream fields. -/
theorem applyFormat_stream_fields (p : ParsedRecord) (fmt? : Option PyFormat) :
    (applyFormat p fmt?).video_codec = p.video_codec ∧
    (applyFormat p fmt?).video_codec_long = p.video_codec_long ∧
    (applyFormat p fmt?).resolution = p.resolution ∧
    (applyFormat p fmt?).width = p.width ∧
    (applyFormat p fmt?).height = p.height ∧
    (applyFormat p fmt?).frame_rate = p.frame_rate ∧
    (applyFormat p fmt?).aspect_ratio = p.aspect_ratio ∧
    (applyFormat p fmt?).pixel_format = p.pixel_format ∧
    (applyFormat p fmt?).video_bitrate = p.video_bitrate ∧
    (applyFormat p fmt?).audio_codec = p.audio_codec ∧
    (applyFormat p fmt?).audio_codec_long = p.audio_codec_long ∧
    (applyFormat p fmt?).audio_channels = p.audio_channels ∧
    (applyFormat p fmt?).audio_channel_layout = p.audio_channel_layout ∧
    (applyFormat p fmt?).audio_sample_rate = p.audio_sample_rate ∧
    (applyFormat p fmt?).audio_bitrate = p.audio_bitrate := by
  cases fmt? <;> exact ⟨rfl, rfl, rfl, rfl, rfl, rfl, rfl, rfl, rfl, rfl, rfl, rfl, rfl, rfl, rfl⟩

/-- Helper: with a first video stream present, the streams pass writes
every video field from its keys with the defaults of lines 143-151,
whatever the audio streams are. -/
theorem applyStreams_video_head (p : ParsedRecord) (l : List PyStream)
    (v : PyStream) (vs : List PyStream)
    (hv : l.filter (fun s => s.codec_type.getD "" == "video") = v :: vs) :
    (applyStreams p (some l)).video_bitrate = v.bit_rate.getD "N/A" ∧
    (applyStreams p (some l)).resolution =
      toString (v.width.getD 0) ++ "x" ++ toString (v.height.getD 0) ∧
    (applyStreams p (some l)).video_codec = v.codec_name.getD "" ∧
    (applyStreams p (some l)).video_codec_long = v.codec_long_name.getD "" ∧
    (applyStreams p (some l)).width = v.width.getD 0 ∧
    (applyStreams p (some l)).height = v.height.getD 0 ∧
    (applyStreams p (some l)).frame_rate = v.r_frame_rate.getD "" ∧
    (applyStreams p (some l)).aspect_ratio = v.display_aspect_ratio.getD "" ∧
    (applyStreams p (some l)).pixel_format = v.pix_fmt.getD "" := by
  unfold applyStreams
  dsimp only
  rw [hv]
  rcases ha : l.filter (fun s => s.codec_type.getD "" == "audio") with _ | ⟨a, as⟩ <;>
    rw [ha] <;> exact ⟨rfl, rfl, rfl, rfl, rfl, rfl, rfl, rfl, rfl⟩

/-- Helper: with a first audio stream present, the streams pass writes
every audio field from its keys with the defaults of lines 156-161,
whatever the video streams are. -/
theorem applyStreams_audio_head (p : ParsedRecord) (l : List PyStream)
    (a : PyStream) (as : List PyStream)
    (ha : l.filter (fun s => s.codec_type.getD "" == "audio") = a :: as) :
    (applyStreams p (some l)).audio_bitrate = a.bit_rate.getD "N/A" ∧
    (applyStreams p (some l)).audio_codec = a.codec_name.getD "" ∧
    (applyStreams p (some l)).audio_codec_long = a.codec_long_name.getD "" ∧
    (applyStreams p (some l)).audio_channels = a.channels.getD 0 ∧
    (applyStreams p (some l)).audio_channel_layout = a.channel_layout.getD "" ∧
    (applyStreams p (some l)).audio_sample_rate = a.sample_rate.getD "" := by
  unfold applyStreams
  dsimp only
  rw [ha]
  exact ⟨rfl, rfl, rfl, rfl, rfl, rfl⟩

/-- Helper: with the format section present, the format pass writes the
six format fields from its keys with the defaults of lines 112-117. -/
theorem applyFormat_some (p : ParsedRecord) (fmt : PyFormat) :
    (applyFormat p (some fmt)).file_size_bytes = fmt.size.getD 0 ∧
    (applyFormat p (some fmt)).file_size_mb =
      round2 ((fmt.size.getD 0 : ℚ) / (1024 * 1024)) ∧
    (applyFormat p (some fmt)).duration_seconds = round2 (fmt.duration.getD 0) ∧
    (applyFormat p (some fmt)).format_name = fmt.format_name.getD "" ∧
    (applyFormat p (some fmt)).format_long_name = fmt.format_long_name.getD "" ∧
    (applyFormat p (some fmt)).bit_rate = fmt.bit_rate.getD 0 :=
  ⟨rfl, rfl, rfl, rfl, rfl, rfl⟩

/-- Helper: rounding the exact zero to two decimals gives zero. -/
theorem round2_zero : round2 0 = 0 := by
  simp [round2]

/-- C7 counterexample: for a well-formed probe result with one video
stream whose optional keys are all absent, parse_metadata sets the
string field video_bitrate to N/A and the string field resolution to
0x0, not to the empty string as the claim requires for absent keys. -/
theorem c7_counterexample :
    (parse_metadata (some c7_raw) "vid.mp4" "2026-01-01 00:00:00").map
        (fun p => (p.video_bitrate, p.resolution)) = some ("N/A", "0x0") ∧
    ("N/A" : String) ≠ "" ∧ ("0x0" : String) ≠ "" := by
  refine ⟨rfl, by decide, by decide⟩

/-- C7 amended: for every successful parse of a well-formed probe result,
the generated timestamp field carries the extraction wall-clock value and
the file path is carried through, and every numeric field defaults to
zero and every string field to the empty string when the corresponding
key is absent: wholesale when the format section or the streams section
is missing, and per key inside a present format section or a present
first video or audio stream; the only exceptions are that inside a
present first video or audio stream an absent bit_rate key yields the
string N/A in video_bitrate or audio_bitrate, and absent width and
height keys yield the resolution string 0x0. -/
theorem c7_parse_defaults (r : RawMetadata) (fp now : String) (p : ParsedRecord)
    (hp : parse_metadata (some r) fp now = some p) :
    p.extraction_timestamp = now ∧
    p.filepath = fp ∧
    (r.format = none → p.file_size_bytes = 0 ∧ p.file_size_mb = 0 ∧
      p.duration_seconds = 0 ∧ p.format_name = "" ∧ p.format_long_name = "" ∧
      p.bit_rate = 0) ∧
    (∀ fmt, r.format = some fmt →
      (fmt.size = none → p.file_size_bytes = 0 ∧ p.file_size_mb = 0) ∧
      (fmt.duration = none → p.duration_seconds = 0) ∧
      (fmt.format_name = none → p.format_name = "") ∧
      (fmt.format_long_name = none → p.format_long_name = "") ∧
      (fmt.bit_rate = none → p.bit_rate = 0)) ∧
    (r.streams = none → p.video_codec = "" ∧ p.video_codec_long = "" ∧
      p.resolution = "" ∧ p.width = 0 ∧ p.height = 0 ∧ p.frame_rate = "" ∧
      p.aspect_ratio = "" ∧ p.pixel_format = "" ∧ p.video_bitrate = "" ∧
      p.audio_codec = "" ∧ p.audio_codec_long = "" ∧ p.audio_channels = 0 ∧
      p.audio_channel_layout = "" ∧ p.audio_sample_rate = "" ∧
      p.audio_bitrate = "") ∧
    (∀ v vs, (r.streams.getD []).filter
        (fun s => s.codec_type.getD "" == "video") = v :: vs →
      (v.bit_rate = none → p.video_bitrate = "N/A") ∧
      (v.width = none → v.height = none → p.resolution = "0x0") ∧
      (v.codec_name = none → p.video_codec = "") ∧
      (v.codec_long_name = none → p.video_codec_long = "") ∧
      (v.width = none → p.width = 0) ∧
      (v.height = none → p.height = 0) ∧
      (v.r_frame_rate = none → p.frame_rate = "") ∧
      (v.display_aspect_ratio = none → p.aspect_ratio = "") ∧
      (v.pix_fmt = none → p.pixel_format = "")) ∧
    (∀ a as, (r.streams.getD []).filter
        (fun s => s.codec_type.getD "" == "audio") = a :: as →
      (a.bit_rate = none → p.audio_bitrate = "N/A") ∧
      (a.codec_name = none → p.audio_codec = "") ∧
      (a.codec_long_name = none → p.audio_codec_long = "") ∧
      (a.channels = none → p.audio_channels = 0) ∧
      (a.channel_layout = none → p.audio_channel_layout = "") ∧
      (a.sample_rate = none → p.audio_sample_rate = "")) := by
  simp only [parse_metadata] at hp
  rcases hEmpty : r.isEmptyDict with _ | _
  · rw [hEmpty] at hp
    simp only [Bool.false_eq_true, if_false, Option.some.injEq] at hp
    subst hp
    refine ⟨(applyPasses_fixed_fields _ _ _).1, (applyPasses_fixed_fields _ _ _).2,
      ?_, ?_, ?_, ?_, ?_⟩
    · intro hf
      rw [hf]
      obtain ⟨h1, h2, h3, h4, h5, h6⟩ := applyStreams_format_fields
        (applyFormat (baseRecord fp now) none) r.streams
      exact ⟨h1, h2, h3, h4, h5, h6⟩
    · intro fmt hf
      rw [hf]
      obtain ⟨h1, h2, h3, h4, h5, h6⟩ := applyStreams_format_fields
        (applyFormat (baseRecord fp now) (some fmt)) r.streams
      obtain ⟨f1, f2, f3, f4, f5, f6⟩ := applyFormat_some (baseRecord fp now) fmt
      refine ⟨?_, ?_, ?_, ?_, ?_⟩
      · intro hsz
        constructor
        · rw [h1, f1, hsz]
          rfl
        · rw [h2, f2, hsz]
          norm_num [round2]
      · intro hd
        rw [h3, f3, hd]
        exact round2_zero
      · intro hn
        rw [h4, f4, hn]
        rfl
      · intro hn
        rw [h5, f5, hn]
        rfl
      · intro hn
        rw [h6, f6, hn]
        rfl
    · intro hs
      rw [hs]
      obtain ⟨g1, g2, g3, g4, g5, g6, g7, g8, g9, g10, g11, g12, g13, g14, g15⟩ :=
        applyFormat_stream_fields (baseRecord fp now) r.format
      exact ⟨g1, g2, g3, g4, g5, g6, g7, g8, g9, g10, g11, g12, g13, g14, g15⟩
    · intro v vs hv
      cases hS : r.streams with
      | none =>
        rw [hS] at hv
        exact absurd hv (by simp)
      | some l =>
        rw [hS] at hv
        simp only [Option.getD_some] at hv
        obtain ⟨hb, hr, hc1, hc2, hw, hh, hfr, har, hpx⟩ := applyStreams_video_head
          (applyFormat (baseRecord fp now) r.format) l v vs hv
        refine ⟨?_, ?_, ?_, ?_, ?_, ?_, ?_, ?_, ?_⟩
        · intro h
          rw [hb, h]
          rfl
        · intro h1 h2
          rw [hr, h1, h2]
          decide
        · intro h
          rw [hc1, h]
          rfl
        · intro h
          rw [hc2, h]
          rfl
        · intro h
          rw [hw, h]
          rfl
        · intro h
          rw [hh, h]
          rfl
        · intro h
          rw [hfr, h]
          rfl
        · intro h
          rw [har, h]
          rfl
        · intro h
          rw [hpx, h]
          rfl
    · intro a as ha
      cases hS : r.streams with
      | none =>
        rw [hS] at ha
        exact absurd ha (by simp)
      | some l =>
        rw [hS] at ha
        simp only [Option.getD_some] at ha
        obtain ⟨hb, hc1, hc2, hch, hcl, hsr⟩ := applyStreams_audio_head
          (applyFormat (baseRecord fp now) r.format) l a as ha
        refine ⟨?_, ?_, ?_, ?_, ?_, ?_⟩
        · intro h
          rw [hb, h]
          rfl
        · intro h
          rw [hc1, h]
          rfl
        · intro h
          rw [hc2, h]
          rfl
        · intro h
          rw [hch, h]
          rfl
        · intro h
          rw [hcl, h]
          rfl
        · intro h
          rw [hsr, h]
          rfl
  · rw [hEmpty] at hp
    simp at hp

/-- C7 witness: the amended statement applied to the concrete probe
result c7_raw, whose format section is absent and whose single video
stream has an absent bit_rate key. -/
theorem c7_parse_defaults_witness :
    c7_record.extraction_timestamp = "t0" ∧
    c7_record.file_size_bytes = 0 ∧
    c7_record.video_bitrate = "N/A" ∧
    c7_record.video_codec = "" := by
  have hp : parse_metadata (some c7_raw) "vid.mp4" "t0" = some c7_record := rfl
  have H := c7_parse_defaults c7_raw "vid.mp4" "t0" c7_record hp
  exact ⟨H.1, (H.2.2.1 rfl).1, (H.2.2.2.2.2.1 c7_stream [] rfl).1 rfl,
    (H.2.2.2.2.2.1 c7_stream [] rfl).2.2.1 rfl⟩

/-- Helper: a per-item result carries a parsed record exactly when it is
a success. -/
theorem metaStep_record_success (now : String) (it : MetaItem) :
    (metaStep now it).1.record.isSome = (metaStep now it).1.success := by
  unfold metaStep
  split
  · rfl
  · dsimp only
    split
    · split <;> rfl
    · rfl

/-- Helper: the result sequence is the per-item map of the loop body. -/
theorem runMetadata_results (now : String) (items : List MetaItem) :
    (runMetadata now items).1 = items.map (fun it => (metaStep now it).1) := by
  induction items with
  | nil => rfl
  | cons it rest ih =>
    simp only [runMetadata, List.map_cons]
    rw [ih]

/-- Helper: every result of the metadata loop carries a parsed record
exactly when it is a success. -/
theorem mem_runMetadata_record (now : String) (mitems : List MetaItem)
    (r : ProcessResult) (hr : r ∈ (runMetadata now mitems).1) :
    r.record.isSome = r.success := by
  rw [runMetadata_results] at hr
  obtain ⟨it, _, rfl⟩ := List.mem_map.mp hr
  exact metaStep_record_success now it

/-- C8 counterexample: a run of the metadata loop in which the single
item fails (missing file) has one failed entry, yet the failed-log
artifact of src/metadata.py is not written, because the write at lines
319-328 sits inside the if all_metadata block of line 271, which is
skipped when no item succeeded. -/
theorem c8_counterexample :
    metadataFailLogWritten (runMetadata "t" [⟨"gone.mp4", false, none⟩]).1 = false ∧
    (failedFilesOf (runMetadata "t" [⟨"gone.mp4", false, none⟩]).1).length = 1 := by
  exact ⟨rfl, rfl⟩

/-- C8 amended: the downloader of src/video_generator.py writes its
plain-text failure log exactly when at least one item failed (so no log
when every item succeeds); the metadata extractor of src/metadata.py
writes its failure log exactly when at least one item failed AND at
least one item succeeded, so an all-failure run produces no failure log
despite its failures. -/
theorem c8_fail_log_agreement (now : String) (mitems : List MetaItem)
    (ditems : List DlItem) :
    (metadataFailLogWritten (runMetadata now mitems).1 = true ↔
      ((∃ r ∈ (runMetadata now mitems).1, r.success = true) ∧
        (∃ r ∈ (runMetadata now mitems).1, r.success = false))) ∧
    (vgFailLogWritten ditems = true ↔ ∃ it ∈ ditems, it.ok = false) := by
  constructor
  · have hrec := mem_runMetadata_record now mitems
    simp only [metadataFailLogWritten, allMetadataOf, failedFilesOf, Bool.and_eq_true,
      Bool.not_eq_true', List.isEmpty_eq_false, ne_eq, List.filterMap_eq_nil_iff,
      List.map_eq_nil_iff, List.filter_eq_nil_iff, not_forall]
    constructor
    · rintro ⟨⟨r, hr, hrec2⟩, ⟨q, hq, hq2⟩⟩
      refine ⟨⟨r, hr, ?_⟩, ⟨q, hq, ?_⟩⟩
      · rw [← hrec r hr]
        rw [Option.isSome_iff_ne_none]
        simpa using hrec2
      · simpa using hq2
    · rintro ⟨⟨r, hr, hs⟩, ⟨q, hq, hq2⟩⟩
      refine ⟨⟨r, hr, ?_⟩, ⟨q, hq, ?_⟩⟩
      · have hi := hrec r hr
        rw [hs] at hi
        rw [Option.isSome_iff_ne_none] at hi
        simpa using hi
      · simpa using hq2
  · simp only [vgFailLogWritten, failedUrlsOf, Bool.not_eq_true',
      List.isEmpty_eq_false, ne_eq, List.map_eq_nil_iff, List.filter_eq_nil_iff,
      not_forall]
    constructor
    · rintro ⟨it, hit, h2⟩
      exact ⟨it, hit, by simpa using h2⟩
    · rintro ⟨it, hit, h2⟩
      exact ⟨it, hit, by simpa using h2⟩

/-- C9: for every folder, scan_folder_for_videos returns a duplicate-free
sequence, sorted in the deterministic lexicographic string order, and
returns the empty sequence when the folder does not exist; its members
are exactly the folder entries matching one of the glob patterns, i.e.
ending in a listed extension or its uppercase variant. -/
theorem c9_scan_dedup_sorted :
    (∀ folder, (scan_folder_for_videos folder).Nodup ∧
      (scan_folder_for_videos folder).Sorted (· ≤ ·)) ∧
    scan_folder_for_videos none = [] ∧
    (∀ files x, x ∈ scan_folder_for_videos (some files) ↔
      x ∈ files ∧ ∃ e ∈ video_extensions,
        (x.endsWith e || x.endsWith e.toUpper) = true) := by
  refine ⟨?_, rfl, ?_⟩
  · intro folder
    cases folder with
    | none => exact ⟨List.nodup_nil, List.sorted_nil⟩
    | some files =>
      constructor
      · exact (List.perm_insertionSort _ _).nodup_iff.mpr (List.nodup_dedup _)
      · exact List.sorted_insertionSort _ _
  · intro files x
    unfold scan_folder_for_videos
    rw [(List.perm_insertionSort _ _).mem_iff, List.mem_dedup]
    simp only [List.mem_flatMap, List.mem_append, List.mem_filter, Bool.or_eq_true]
    constructor
    · rintro ⟨e, he, ⟨hx, hend⟩ | ⟨hx, hend⟩⟩
      · exact ⟨hx, e, he, Or.inl hend⟩
      · exact ⟨hx, e, he, Or.inr hend⟩
    · rintro ⟨hx, e, he, hend | hend⟩
      · exact ⟨e, he, Or.inl ⟨hx, hend⟩⟩
      · exact ⟨e, he, Or.inr ⟨hx, hend⟩⟩

/-- C10 counterexample: parse_metadata does return a record for a truthy
well-formed dict, but the record has 28 keys (filepath through
extraction_timestamp), not the 27 the claim states. -/
theorem c10_counterexample :
    (parse_metadata (some ⟨none, none, ["tags"]⟩) "f.mp4" "t").isSome = true ∧
    record_keys.length = 28 ∧ (28 : Nat) ≠ 27 := by
  refine ⟨rfl, rfl, by decide⟩

/-- C10 amended: parse_metadata returns none exactly when its raw
argument is falsy in the Python sense (None or the empty dict), and
every record it returns has exactly the fixed 28 keys of the dict
literal, filepath through extraction_timestamp, independent of which
optional keys the probe output contains (the record type is fixed). -/
theorem c10_none_iff_falsy_and_key_count (raw : Option RawMetadata)
    (fp now : String) :
    (parse_metadata raw fp now = none ↔ pyTruthyRaw raw = false) ∧
    record_keys.length = 28 ∧ record_keys.Nodup := by
  refine ⟨?_, rfl, by decide⟩
  cases raw with
  | none => simp [parse_metadata, pyTruthyRaw]
  | some r =>
    cases h : r.isEmptyDict <;> simp [parse_metadata, pyTruthyRaw, h]
